import Mathlib

/-!
# Verification of `scrape_mrgdatashare.py` (RobotCarDataset-Scraper)

Shallow embedding of the download script `scrape_mrgdatashare.py`.
Strings and byte strings are modelled as `List Char`; the HTTP response
consumed by `Scraper.scrape` is modelled as a record of the observable data
the code reads (status code, declared content type, the streamed chunk
sequence).  Side effects (file writes, `throttle.count()` calls, login
calls, sleeps) are made explicit as fields of result records.
-/

/-- `good_status_code = 200` in the source. -/
def good_status_code : Nat := 200

/-- The sentinel the server puts in the body of a missing file,
`b"File not found."` in `Scraper.scrape`. -/
def notFoundMarker : List Char := "File not found.".toList

/-- Substring test on byte strings: models Python `needle in chunk`
(for bytes objects). -/
def listHasSub (needle : List Char) : List Char → Bool
  | [] => needle.isEmpty
  | hay@(_ :: rest) => needle.isPrefixOf hay || listHasSub needle rest

/-- The observable parts of the `requests` response that `Scraper.scrape`
can read: HTTP status, declared content type (never inspected by the
source code) and the chunk sequence produced by `result.iter_content`. -/
structure Response where
  status_code : Nat
  contentType : List Char
  chunks : List (List Char)
deriving DecidableEq

deriving instance DecidableEq for Except

/-- The observable outcome of one `Scraper.scrape` call.
`result` is the return value (`Except.error` models the `ValueError`
raised on a bad status code); `fileChunks` is `some l` when the local file
was opened and holds exactly the chunks written to it (`none` when no file
was opened at all); `fileClosed` records whether `file_handle.close()` was
reached; `throttleCounts` counts the `throttle.count()` calls;
`loginCalls` counts calls to `self.login()` made during the scrape;
`requestsIssued` counts HTTP GETs issued. -/
structure ScrapeOutcome where
  result : Except String Bool
  fileChunks : Option (List (List Char))
  fileClosed : Bool
  throttleCounts : Nat
  loginCalls : Nat
  requestsIssued : Nat
deriving DecidableEq

/-- The chunk loop of `Scraper.scrape` (lines 449-463 of the source):
for each chunk, first test `b"File not found." in chunk` and return
`False` at once if it holds (file neither closed nor deleted), otherwise
`throttle.count()`, then write the chunk if it is non-empty.  Returns
(return value, chunks written, file closed?, count calls). -/
def scrapeLoop : List (List Char) → List (List Char) → Nat →
    Bool × List (List Char) × Bool × Nat
  | [], written, counts => (true, written, true, counts)
  | c :: rest, written, counts =>
    if listHasSub notFoundMarker c then (false, written, false, counts)
    else scrapeLoop rest (if c.isEmpty then written else written ++ [c]) (counts + 1)

/-- Model of `Scraper.scrape` (source lines 426-465).  The single GET is
issued; a non-200 status raises `ValueError("bad file_url: ...")`; when
`dry_run` is set the body is not consumed and `True` is returned; else the
local file is opened and the chunk loop runs.  The content type of the
response is never inspected and `login` is never called here. -/
def Scraper.scrape (dry_run : Bool) (resp : Response) : ScrapeOutcome :=
  if resp.status_code ≠ good_status_code then
    ⟨Except.error "bad file_url", none, false, 0, 0, 1⟩
  else if dry_run then
    ⟨Except.ok true, none, false, 0, 0, 1⟩
  else
    let r := scrapeLoop resp.chunks [] 0
    ⟨Except.ok r.1, some r.2.1, r.2.2.1, r.2.2.2, 0, 1⟩

/-- `wildcard = "*"` in the source. -/
def wildcard : String := "*"

/-- Model of `Datasets.validate` (source lines 131-140): raises
`ValueError` when the queried dataset is neither the wildcard nor a
member of the datasets list read from the catalog file. -/
def Datasets.validate (dataset : String) (datasets : List String) :
    Except String Unit :=
  if dataset ≠ wildcard ∧ dataset ∉ datasets then
    Except.error "Please specify a valid dataset."
  else Except.ok ()

/-- Model of `Datasets.check` (source lines 142-153): a dataset is
downloaded in this session iff it equals the query or the query is the
wildcard. -/
def Datasets.check (queryDataset dataset : String) : Bool :=
  queryDataset == dataset || queryDataset == wildcard

/-- Models the orchestration up to dataset selection: `Datasets.__init__`
runs `validate` (which raises for an unknown query, source line 72), and
the main loop (source lines 960-966) then attempts downloads exactly for
the catalog datasets passing `Datasets.check`.  Returns the list of
datasets for which download (and hence extraction) work is attempted. -/
def selectDatasets (queryDataset : String) (datasets : List String) :
    Except String (List String) :=
  match Datasets.validate queryDataset datasets with
  | Except.error e => Except.error e
  | Except.ok () => Except.ok (datasets.filter (fun d => Datasets.check queryDataset d))

/-- Model of `Scraper.get_csrf_middleware_token` (source lines 364-381):
the xpath query yields a list of candidate token strings; the code runs
`list(set(tokens))[0]`.  `none` models the `IndexError` raised by `[0]`
on an empty list; deduplication of the candidates models `set`.  (Python
iterates a `set` in an order that is unspecified across processes; the
model fixes the order to first occurrence of each distinct token, which
is immaterial to emptiness and membership.) -/
def Scraper.get_csrf_middleware_token (tokens : List String) : Option String :=
  tokens.dedup.head?

/-- Throttle state (source lines 468-499): window length `period_duration`
(seconds, from CL, an int), limit `chunks_per_period` (int), running
counter `num_chunks_in_period` and the window start timestamp `period`
(modelled as whole seconds since an epoch; `datetime.now()` is passed in
explicitly as `now`). -/
structure Throttle where
  period_duration : Int
  chunks_per_period : Int
  num_chunks_in_period : Int
  period : Nat
deriving DecidableEq

/-- Model of `Throttle.get_period_seconds` (source lines 582-595):
`period_duration - (now - period).seconds`.  `timedelta.seconds` is the
seconds part of the elapsed time modulo one day (86400); time is assumed
monotone (`now` is never before `period`, which always holds in a run as
`period` is a previous `now`). -/
def Throttle.get_period_seconds (t : Throttle) (now : Nat) : Int :=
  t.period_duration - Int.ofNat ((now - t.period) % 86400)

/-- Model of `Throttle.wait` (source lines 567-580): reset the window when
its remaining time is negative, otherwise pause for the remaining time
when the chunk counter strictly exceeds the limit.  Returns the new state
and whether `Throttle.pause` was invoked (the blocking delay). -/
def Throttle.wait (t : Throttle) (now : Nat) : Throttle × Bool :=
  let period_seconds := t.get_period_seconds now
  if period_seconds < 0 then
    ({ t with num_chunks_in_period := 0, period := now }, false)
  else if t.num_chunks_in_period > t.chunks_per_period then
    (t, true)
  else (t, false)

/-- Model of `Throttle.count` (source lines 609-614): unconditionally
increments the chunk counter; no limit check, no pause. -/
def Throttle.count (t : Throttle) : Throttle :=
  { t with num_chunks_in_period := t.num_chunks_in_period + 1 }

/-- One observable throttle interaction: a `wait()` call at a given
wall-clock time, or a `count()` call (issued per received chunk). -/
inductive ThrottleOp where
  | wait (now : Nat) : ThrottleOp
  | count : ThrottleOp
deriving DecidableEq

/-- Runs a sequence of throttle interactions from a state, returning the
final state and the number of blocking pauses inserted along the way. -/
def runThrottle : Throttle → List ThrottleOp → Throttle × Nat
  | t, [] => (t, 0)
  | t, ThrottleOp.count :: rest => runThrottle t.count rest
  | t, ThrottleOp.wait now :: rest =>
    let w := t.wait now
    let r := runThrottle w.1 rest
    (r.1, (if w.2 then 1 else 0) + r.2)

/-- A downloaded payload as seen by `tarfile`: either a well-formed tar
archive, or a malformed/non-tar byte stream (for which `tarfile.open`
with mode `"r:"` raises `tarfile.ReadError`). -/
inductive TarPayload where
  | valid : TarPayload
  | malformed : TarPayload
deriving DecidableEq

/-- The exception domain of the `try` block in `Zipper.unzip`: the source
catches exactly `tarfile.ReadError`. -/
inductive TarError where
  | readError : TarError
deriving DecidableEq

/-- Models the `tar = tarfile.open(...); tar.extractall(...); tar.close()`
sequence inside the `try` of `Zipper.unzip`: a malformed payload raises
`tarfile.ReadError`, a valid one extracts. -/
def tarOpenExtract : TarPayload → Except TarError Unit
  | TarPayload.valid => Except.ok ()
  | TarPayload.malformed => Except.error TarError.readError

/-- The observable outcome of one `Zipper.unzip` call: the updated
success counter, whether `os.remove` deleted the local archive, and
whether the failure message was logged (the `except` branch ran). -/
structure UnzipResult where
  num_successful_unzipped : Nat
  fileRemoved : Bool
  loggedFailure : Bool
deriving DecidableEq

/-- Model of `Zipper.unzip` (source lines 740-768): try to open and
extract the archive, incrementing `num_successful_unzipped` on success;
catch `tarfile.ReadError` and log it; in either case fall through to the
unconditional `os.remove(url_handler.local_file_path)`. -/
def Zipper.unzip (num_successful_unzipped : Nat) (p : TarPayload) : UnzipResult :=
  match tarOpenExtract p with
  | Except.ok () => ⟨num_successful_unzipped + 1, true, false⟩
  | Except.error TarError.readError => ⟨num_successful_unzipped, true, true⟩

/-- Model of `DatasetHandler.get_overwrite` (source lines 675-692):
raises `IOError` when the parsed `--overwrite` value is falsy, otherwise
returns it. -/
def DatasetHandler.get_overwrite (overwrite : Bool) : Except String Bool :=
  if !overwrite then Except.error "Please specify option overwrite."
  else Except.ok overwrite

/-- The four branches of `DatasetHandler.check` (source lines 694-717),
distinguished so that reachability of each branch can be stated. -/
inductive CheckBranch where
  | cannotOverwrite : CheckBranch
  | createNoOverwrite : CheckBranch
  | overwriteExisting : CheckBranch
  | createWithOverwrite : CheckBranch
deriving DecidableEq

/-- Model of `DatasetHandler.check` (source lines 694-717): four-way
branch on the `overwrite` flag and on `os.path.exists(dataset_dir)`
(passed in as `dirExists`).  `cannotOverwrite` is the branch raising
`ValueError`. -/
def DatasetHandler.check (overwrite dirExists : Bool) : CheckBranch :=
  if !overwrite && dirExists then CheckBranch.cannotOverwrite
  else if !overwrite && !dirExists then CheckBranch.createNoOverwrite
  else if overwrite && dirExists then CheckBranch.overwriteExisting
  else CheckBranch.createWithOverwrite

/-- `base_download_url` in the source (note the trailing slash). -/
def base_download_url : List Char :=
  "http://mrgdatashare.robots.ox.ac.uk:80/download/?filename=datasets/".toList

/-- `file_extension = ".tar"` in the source. -/
def file_extension : List Char := ".tar".toList

/-- Model of `URLHandler.get_file_url` (source lines 827-841):
`base_download_url + dataset + "/" + dataset + "_" + file_pattern +
file_extension`. -/
def URLHandler.get_file_url (file_pattern dataset : List Char) : List Char :=
  base_download_url ++ dataset ++ ['/'] ++ dataset ++ ['_'] ++ file_pattern ++ file_extension

/-- One step of the fold implementing `split('/')[-1]`: restart the
segment at every `'/'`, otherwise extend it. -/
def lastSegStep (acc : List Char) (c : Char) : List Char :=
  if c = '/' then [] else acc ++ [c]

/-- Models Python `s.split('/')[-1]`: the (possibly empty) suffix of `s`
after its last `'/'`, or all of `s` when it has none. -/
def lastSeg (s : List Char) : List Char :=
  s.foldl lastSegStep []

/-- Models `os.path.join(a, b)` (posix): `b` when `b` is absolute; plain
concatenation when `a` is empty or already ends in a separator; otherwise
insert a separator. -/
def pathJoin (a b : List Char) : List Char :=
  if b.head? = some '/' then b
  else if a = [] ∨ a.getLast? = some '/' then a ++ b
  else a ++ '/' :: b

/-- Model of `URLHandler.get_local_file_path` (source lines 843-863):
take the stem `file_url.split('/')[-1]` and join it onto the dataset
directory. -/
def URLHandler.get_local_file_path (file_url dataset_dir : List Char) : List Char :=
  pathJoin dataset_dir (lastSeg file_url)

/-- The possible outcomes of one `scraper.scrape(url_handler)` call as
seen by the main loop: a normal return (`file_was_found`), a
connection-level transport error (a `requests` exception), or any other
exception. -/
inductive FetchOutcome where
  | ok : Bool → FetchOutcome
  | transportError : FetchOutcome
  | otherError : FetchOutcome
deriving DecidableEq

/-- Error classes escaping a download attempt. -/
inductive FetchError where
  | transport : FetchError
  | other : FetchError
deriving DecidableEq

/-- The observable behaviour of the per-(dataset, file_pattern) download
step of the main loop: how many `scrape` attempts were made, how many
backoff sleeps were performed between attempts, and the final result
(`Except.error` meaning the exception escapes the loop and aborts the
whole run). -/
structure AttemptTrace where
  attemptsMade : Nat
  backoffSleeps : Nat
  result : Except FetchError Bool
deriving DecidableEq

/-- Model of the download step of the main loop (source line 988):
`file_was_found = scraper.scrape(url_handler)` is a single unguarded
call — there is no try/except around it, no retry loop and no backoff
sleep — so the outcome of the first (and only) attempt is final, and any
exception propagates out of both loops and aborts the run.  `oracle n` is
the outcome the n-th attempt would have, were it made. -/
def downloadStep (oracle : Nat → FetchOutcome) : AttemptTrace :=
  match oracle 0 with
  | FetchOutcome.ok found => ⟨1, 0, Except.ok found⟩
  | FetchOutcome.transportError => ⟨1, 0, Except.error FetchError.transport⟩
  | FetchOutcome.otherError => ⟨1, 0, Except.error FetchError.other⟩

/-- An attempt oracle with two consecutive transport failures followed by
success: the scenario of the retry claim. -/
def twoFailsThenOk : Nat → FetchOutcome :=
  fun n => if n < 2 then FetchOutcome.transportError else FetchOutcome.ok true

/-- Running the chunk loop over marker-free chunks `pre` followed by a
chunk holding the sentinel: the loop returns `false` right at the marker
chunk, with exactly the non-empty chunks of `pre` written, the file not
closed, and one `count()` per chunk of `pre`. -/
theorem scrapeLoop_marker (m : List Char) (post : List (List Char))
    (hm : listHasSub notFoundMarker m = true) :
    ∀ (pre written : List (List Char)) (counts : Nat),
      (∀ c ∈ pre, listHasSub notFoundMarker c = false) →
      scrapeLoop (pre ++ m :: post) written counts =
        (false, written ++ pre.filter (fun c => !c.isEmpty), false, counts + pre.length) := by
  intro pre
  induction pre with
  | nil => intro written counts _; simp [scrapeLoop, hm]
  | cons c pre ih =>
    intro written counts hpre
    have hc : listHasSub notFoundMarker c = false := hpre c (List.mem_cons_self c pre)
    have hrest : ∀ x ∈ pre, listHasSub notFoundMarker x = false :=
      fun x hx => hpre x (List.mem_cons_of_mem c hx)
    have step : scrapeLoop ((c :: pre) ++ m :: post) written counts =
        scrapeLoop (pre ++ m :: post)
          (if c.isEmpty then written else written ++ [c]) (counts + 1) := by
      simp [scrapeLoop, hc]
    rw [step, ih _ _ hrest]
    cases he : c.isEmpty <;>
      simp [he, List.filter_cons, List.append_assoc] <;> omega

/-- Claim C1 (amended): when a streamed chunk contains the
`"File not found."` sentinel, `Scraper.scrape` stops iterating and
returns `False`, so no later chunk is ever written; but the partial
output already written is NOT discarded — the destination file remains,
holding exactly the non-empty chunks received before the marker (and the
file handle is not even closed). -/
theorem scrape_marker_aborts_keeping_partial_output (ct m : List Char)
    (pre post : List (List Char))
    (hm : listHasSub notFoundMarker m = true)
    (hpre : ∀ c ∈ pre, listHasSub notFoundMarker c = false) :
    Scraper.scrape false ⟨good_status_code, ct, pre ++ m :: post⟩ =
      ⟨Except.ok false, some (pre.filter (fun c => !c.isEmpty)), false, pre.length, 0, 1⟩ := by
  simp only [Scraper.scrape, ne_eq, not_true_eq_false, if_false, ite_self,
    reduceIte]
  rw [scrapeLoop_marker m post hm pre [] 0 hpre]
  simp

/-- Claim C1 counterexample: with chunks `["ab", "File not found.", "cd"]`
the scrape returns `False` and never writes `"cd"`, but the destination
file is not discarded: it remains on disk containing the earlier chunk
`"ab"`. -/
theorem scrape_marker_counterexample :
    Scraper.scrape false ⟨200, [], [['a', 'b'], "File not found.".toList, ['c', 'd']]⟩ =
      ⟨Except.ok false, some [['a', 'b']], false, 1, 0, 1⟩ ∧
    (Scraper.scrape false
        ⟨200, [], [['a', 'b'], "File not found.".toList, ['c', 'd']]⟩).fileChunks ≠ none := by
  exact ⟨rfl, by decide⟩

/-- Claim C1 witness: concrete marker-and-prefix instance of the amended
theorem. -/
theorem scrape_marker_aborts_keeping_partial_output_witness :
    Scraper.scrape false ⟨good_status_code, [],
        [['x'], "File not found.".toList]⟩ =
      ⟨Except.ok false, some [['x']], false, 1, 0, 1⟩ := by
  have h := scrape_marker_aborts_keeping_partial_output []
    "File not found.".toList [['x']] [] (by decide)
    (by intro c hc; simp at hc; subst hc; decide)
  simpa using h

/-- Claim C2 (amended): the main loop performs exactly one
`scraper.scrape` attempt per (dataset, file_pattern) pair — there is no
retry budget and no backoff sleep; a connection-level transport error
(like any other exception) escapes the loop and aborts the whole run. -/
theorem mainLoop_single_attempt (oracle : Nat → FetchOutcome) :
    (downloadStep oracle).attemptsMade = 1 ∧
    (downloadStep oracle).backoffSleeps = 0 ∧
    (oracle 0 = FetchOutcome.transportError →
      (downloadStep oracle).result = Except.error FetchError.transport) := by
  unfold downloadStep
  cases h : oracle 0 <;> simp

/-- Claim C2 counterexample: with two consecutive transport failures
followed by success (the claim's `max_attempts = 3` scenario), the code
makes a single attempt, sleeps zero times and aborts with the transport
error — it does not succeed on a third attempt with two backoff sleeps. -/
theorem retry_claim_counterexample :
    downloadStep twoFailsThenOk = ⟨1, 0, Except.error FetchError.transport⟩ ∧
    (downloadStep twoFailsThenOk).result ≠ Except.ok true ∧
    (downloadStep twoFailsThenOk).backoffSleeps ≠ 2 := by
  refine ⟨rfl, ?_, ?_⟩ <;> decide

/-- Claim C2 witness: the amended theorem at the two-transport-failures
oracle. -/
theorem mainLoop_single_attempt_witness :
    (downloadStep twoFailsThenOk).attemptsMade = 1 ∧
    (downloadStep twoFailsThenOk).result = Except.error FetchError.transport :=
  ⟨(mainLoop_single_attempt twoFailsThenOk).1,
    (mainLoop_single_attempt twoFailsThenOk).2.2 (by decide)⟩

/-- Claim C3 (amended): `Scraper.scrape` performs no session-expiry
detection: it never inspects the declared content type (the outcome is
identical under any content type), never calls `login()`, and issues
exactly one request — an HTML body is streamed into the output file like
any other payload. -/
theorem scrape_no_session_expiry_handling (dry : Bool) (s : Nat)
    (ct ct' : List Char) (ch : List (List Char)) :
    (Scraper.scrape dry ⟨s, ct, ch⟩).loginCalls = 0 ∧
    (Scraper.scrape dry ⟨s, ct, ch⟩).requestsIssued = 1 ∧
    Scraper.scrape dry ⟨s, ct, ch⟩ = Scraper.scrape dry ⟨s, ct', ch⟩ := by
  refine ⟨?_, ?_, ?_⟩ <;> simp only [Scraper.scrape] <;> split <;>
    first
    | rfl
    | split <;> rfl

/-- Claim C3 counterexample: a success-status response whose declared
content type is HTML (where a tar payload was expected) triggers no
re-login and no request replay: zero `login()` calls, one request, and
the HTML body is downloaded as if it were the archive. -/
theorem session_expiry_claim_counterexample :
    (Scraper.scrape false
        ⟨200, "text/html; charset=utf-8".toList, [['x']]⟩).loginCalls = 0 ∧
    (Scraper.scrape false
        ⟨200, "text/html; charset=utf-8".toList, [['x']]⟩).requestsIssued = 1 ∧
    (Scraper.scrape false
        ⟨200, "text/html; charset=utf-8".toList, [['x']]⟩).result = Except.ok true := by
  refine ⟨rfl, rfl, ?_⟩
  decide

/-- Claim C9: with `dry_run` set, `Scraper.scrape` still raises on a
non-success status, and on a success status writes no file, never calls
`throttle.count`, and returns `True` for any body — even one consisting
of the `"File not found."` marker. -/
theorem scrape_dry_run_behaviour (resp : Response) :
    (resp.status_code = good_status_code →
      Scraper.scrape true resp = ⟨Except.ok true, none, false, 0, 0, 1⟩) ∧
    (resp.status_code ≠ good_status_code →
      Scraper.scrape true resp =
        ⟨Except.error "bad file_url", none, false, 0, 0, 1⟩) := by
  constructor <;> intro h <;> simp [Scraper.scrape, h]

/-- Claim C9 witness: a dry run over a body that is exactly the
not-found marker still reports the resource as found. -/
theorem scrape_dry_run_behaviour_witness :
    Scraper.scrape true ⟨200, [], ["File not found.".toList]⟩ =
      ⟨Except.ok true, none, false, 0, 0, 1⟩ :=
  (scrape_dry_run_behaviour ⟨200, [], ["File not found.".toList]⟩).1 rfl

/-- Claim C4 (amended): `Throttle.count` increments unconditionally and a
pause is inserted only at a later `wait()` call, so the counter can
exceed `chunks_per_period` (by one even with `wait()` before every
`count()`, and arbitrarily between the per-dataset `wait()` calls of the
main loop) before any blocking delay; the guarantee that does hold is:
whenever `wait()` runs inside an unelapsed window with the counter
already above the limit, it blocks (and leaves the state unchanged). -/
theorem wait_pauses_when_over_limit (t : Throttle) (now : Nat)
    (h1 : 0 ≤ t.get_period_seconds now)
    (h2 : t.num_chunks_in_period > t.chunks_per_period) :
    (t.wait now).2 = true ∧ (t.wait now).1 = t := by
  have h1' : ¬t.get_period_seconds now < 0 := not_lt.mpr h1
  simp [Throttle.wait, h1', h2]

/-- Claim C4 counterexample: with a limit of 1 chunk per period, the call
sequence wait-count-wait-count (all inside the window) drives the counter
to 2 > 1 while inserting zero pauses: the limiter permits the count to
exceed the limit without any blocking delay first. -/
theorem throttle_exceeds_limit_without_pause :
    (runThrottle ⟨600, 1, 0, 0⟩
        [ThrottleOp.wait 0, ThrottleOp.count, ThrottleOp.wait 0,
          ThrottleOp.count]).1.num_chunks_in_period >
      (⟨600, 1, 0, 0⟩ : Throttle).chunks_per_period ∧
    (runThrottle ⟨600, 1, 0, 0⟩
        [ThrottleOp.wait 0, ThrottleOp.count, ThrottleOp.wait 0,
          ThrottleOp.count]).2 = 0 := by
  decide

/-- Claim C4 witness: a state two chunks over a limit of one, inside an
unelapsed window, is blocked by `wait()`. -/
theorem wait_pauses_when_over_limit_witness :
    ((⟨600, 1, 2, 0⟩ : Throttle).wait 0).2 = true :=
  (wait_pauses_when_over_limit ⟨600, 1, 2, 0⟩ 0 (by decide) (by decide)).1

/-- Claim C5 (amended): a `--dataset` query that is neither the wildcard
nor a member of the catalog file makes `Datasets.validate` raise
`ValueError` during construction, so the run aborts before any download
or extraction attempt — zero downloads and extractions happen, but an
error IS raised rather than the run completing silently. -/
theorem selectDatasets_unknown_query (q : String) (ds : List String)
    (hq : q ≠ wildcard) (hmem : q ∉ ds) :
    selectDatasets q ds = Except.error "Please specify a valid dataset." := by
  unfold selectDatasets Datasets.validate
  rw [if_pos ⟨hq, hmem⟩]

/-- Claim C5 counterexample: filtering to a dataset absent from the
catalog raises the validation error instead of yielding an error-free
empty run. -/
theorem unknown_dataset_filter_raises :
    selectDatasets "2015-11-13-10-28-08" ["2014-05-06-12-54-54"] =
      Except.error "Please specify a valid dataset." := by
  decide

/-- Claim C5 witness: the amended theorem at a concrete unknown query. -/
theorem selectDatasets_unknown_query_witness :
    selectDatasets "2013-01-01-00-00-00"
        ["2014-05-06-12-54-54", "2014-05-06-13-09-52"] =
      Except.error "Please specify a valid dataset." :=
  selectDatasets_unknown_query _ _ (by decide) (by decide)

/-- Claim C6 (amended): `get_csrf_middleware_token` fails (an unhandled
`IndexError`, not a dedicated `AuthTokenMissing`) exactly when the page
yields zero token candidates; when one or more candidates exist —
including several distinct, ambiguous ones — it does not fail but returns
one of the candidates (the choice comes from Python set iteration order,
which is not specified across processes). -/
theorem get_csrf_token_fails_only_when_empty (tokens : List String) :
    (Scraper.get_csrf_middleware_token tokens = none ↔ tokens = []) ∧
    (∀ t, Scraper.get_csrf_middleware_token tokens = some t → t ∈ tokens) := by
  constructor
  · unfold Scraper.get_csrf_middleware_token
    rw [List.head?_eq_none_iff]
    exact List.dedup_eq_nil tokens
  · intro t ht
    have hmem : t ∈ tokens.dedup := by
      unfold Scraper.get_csrf_middleware_token at ht
      cases hd : tokens.dedup with
      | nil => rw [hd] at ht; exact absurd ht (by simp)
      | cons a l =>
        rw [hd] at ht
        simp only [List.head?_cons, Option.some.injEq] at ht
        rw [← ht]
        exact List.mem_cons_self a l
    exact List.mem_dedup.mp hmem

/-- Claim C6 counterexample: a page with two distinct (ambiguous)
candidate tokens does not make the code fail — one token is returned. -/
theorem ambiguous_tokens_do_not_fail :
    Scraper.get_csrf_middleware_token ["tokA", "tokB"] = some "tokA" ∧
    Scraper.get_csrf_middleware_token ["tokA", "tokB"] ≠ none := by
  decide

/-- Claim C6 witness: the amended theorem applied to a one-token page. -/
theorem get_csrf_token_fails_only_when_empty_witness :
    "csrf1" ∈ ["csrf1"] :=
  (get_csrf_token_fails_only_when_empty ["csrf1"]).2 "csrf1" rfl

/-- Claim C7: for every downloaded archive handed to `Zipper.unzip`, the
local archive file is deleted whether or not extraction succeeded; a
malformed/non-tar payload is logged (the `tarfile.ReadError` branch), the
file is still removed, the success counter is not advanced, and no
exception escapes, so the batch continues. -/
theorem unzip_always_removes_archive (n : Nat) (p : TarPayload) :
    (Zipper.unzip n p).fileRemoved = true ∧
    ((Zipper.unzip n p).loggedFailure = true ↔ p = TarPayload.malformed) ∧
    (Zipper.unzip n p).num_successful_unzipped =
      (if p = TarPayload.valid then n + 1 else n) := by
  cases p <;> simp [Zipper.unzip, tarOpenExtract]

/-- Inserting a `'/'` into the fold of `lastSeg` discards everything
accumulated so far: the stem restarts after every separator. -/
theorem foldl_lastSegStep_reset (xs ys : List Char) (acc : List Char) :
    List.foldl lastSegStep acc (xs ++ '/' :: ys) =
      List.foldl lastSegStep [] ys := by
  rw [List.foldl_append, List.foldl_cons]
  simp [lastSegStep]

/-- Over separator-free input the fold of `lastSeg` appends verbatim. -/
theorem foldl_lastSegStep_no_slash (ys : List Char) (h : '/' ∉ ys) :
    ∀ acc, List.foldl lastSegStep acc ys = acc ++ ys := by
  induction ys with
  | nil => intro acc; simp
  | cons c ys ih =>
    intro acc
    have hc : ¬c = '/' := fun e => h (e ▸ List.mem_cons_self c ys)
    have hys : '/' ∉ ys := fun hy => h (List.mem_cons_of_mem c hy)
    rw [List.foldl_cons, ih hys]
    simp [lastSegStep, hc]

/-- The stem `file_url.split('/')[-1]` of a constructed download URL is
exactly `{dataset}_{file_pattern}.tar` when the two identifiers are
separator-free. -/
theorem lastSeg_file_url (dataset file_pattern : List Char)
    (hd : '/' ∉ dataset) (hp : '/' ∉ file_pattern) :
    lastSeg (URLHandler.get_file_url file_pattern dataset) =
      dataset ++ ['_'] ++ file_pattern ++ file_extension := by
  unfold lastSeg URLHandler.get_file_url
  have hsplit :
      base_download_url ++ dataset ++ ['/'] ++ dataset ++ ['_'] ++
          file_pattern ++ file_extension =
        (base_download_url ++ dataset) ++
          '/' :: (dataset ++ '_' :: (file_pattern ++ file_extension)) := by
    simp [List.append_assoc]
  rw [hsplit, foldl_lastSegStep_reset]
  have hns : '/' ∉ dataset ++ '_' :: (file_pattern ++ file_extension) := by
    simp only [List.mem_append, List.mem_cons]
    intro hmem
    rcases hmem with h | h | h | h
    · exact hd h
    · exact absurd h (by decide)
    · exact hp h
    · exact absurd h (by decide)
  rw [foldl_lastSegStep_no_slash _ hns]
  simp

/-- `os.path.join` always ends with its second component. -/
theorem pathJoin_gives_suffix (a b : List Char) :
    ∃ t, pathJoin a b = t ++ b := by
  unfold pathJoin
  split
  · exact ⟨[], rfl⟩
  · split
    · exact ⟨a, rfl⟩
    · exact ⟨a ++ ['/'], by simp⟩

/-- Claim C8: URL and local-path construction is pure and deterministic
(`URLHandler.get_file_url` and `URLHandler.get_local_file_path` are
functions of their inputs); the remote URL is literally
`base_download_url + dataset + "/" + dataset + "_" + file_pattern +
".tar"`, its stem is `{dataset}_{file_pattern}.tar`, and the local path
always ends with `{dataset}_{file_pattern}.tar` (for separator-free
identifiers, as produced by the catalog). -/
theorem url_and_path_construction (dataset file_pattern dataset_dir : List Char)
    (hd : '/' ∉ dataset) (hp : '/' ∉ file_pattern) :
    URLHandler.get_file_url file_pattern dataset =
      base_download_url ++ dataset ++ ['/'] ++ dataset ++ ['_'] ++
        file_pattern ++ file_extension ∧
    lastSeg (URLHandler.get_file_url file_pattern dataset) =
      dataset ++ ['_'] ++ file_pattern ++ file_extension ∧
    ∃ t, URLHandler.get_local_file_path
        (URLHandler.get_file_url file_pattern dataset) dataset_dir =
      t ++ (dataset ++ ['_'] ++ file_pattern ++ file_extension) := by
  refine ⟨rfl, lastSeg_file_url dataset file_pattern hd hp, ?_⟩
  unfold URLHandler.get_local_file_path
  rw [lastSeg_file_url dataset file_pattern hd hp]
  exact pathJoin_gives_suffix dataset_dir _

/-- Claim C8 witness: the example dataset and file pattern of the source
yield a local path ending in `2014-05-06-12-54-54_vo.tar`. -/
theorem url_and_path_construction_witness :
    ∃ t, URLHandler.get_local_file_path
        (URLHandler.get_file_url "vo".toList "2014-05-06-12-54-54".toList)
        "/home/user/Downloads/2014-05-06-12-54-54".toList =
      t ++ ("2014-05-06-12-54-54".toList ++ ['_'] ++ "vo".toList ++
        file_extension) :=
  (url_and_path_construction "2014-05-06-12-54-54".toList "vo".toList
    "/home/user/Downloads/2014-05-06-12-54-54".toList
    (by decide) (by decide)).2.2

/-- Claim C10: `DatasetHandler.get_overwrite` raises `IOError` whenever
the parsed overwrite value is falsy, so every successfully constructed
handler has `overwrite = true`; consequently the `ValueError` branch of
`DatasetHandler.check` for a non-overwritable existing directory and the
non-overwrite mkdir branch are both unreachable — only the two
overwrite branches can run. -/
theorem overwrite_always_true (b v dirExists : Bool)
    (h : DatasetHandler.get_overwrite b = Except.ok v) :
    v = true ∧
    DatasetHandler.check v dirExists ≠ CheckBranch.cannotOverwrite ∧
    DatasetHandler.check v dirExists ≠ CheckBranch.createNoOverwrite ∧
    DatasetHandler.check v dirExists =
      (if dirExists then CheckBranch.overwriteExisting
        else CheckBranch.createWithOverwrite) := by
  cases b
  · exact absurd h (by simp [DatasetHandler.get_overwrite])
  · have hv : v = true := by
      simpa [DatasetHandler.get_overwrite] using h
    subst hv
    cases dirExists <;> simp [DatasetHandler.check]

/-- Claim C10 witness: with the truthy parsed value, the `ValueError`
branch is not taken on an existing directory. -/
theorem overwrite_always_true_witness :
    DatasetHandler.check true true ≠ CheckBranch.cannotOverwrite :=
  (overwrite_always_true true true true rfl).2.1
